import Mathlib

/-!
Verification of the client-side synchronization layer of the Ann-Sanjivani
food-rescue frontend.  The definitions below are shallow embeddings of the
TypeScript source files:

  * `src/frontend/src/api.ts`        — request client and auth interceptor
  * `src/frontend/src/store.ts`      — zustand auth store (logout)
  * `src/frontend/src/pages/SurplusPage.tsx` — order-status polling loop
  * `src/unnamed/part_000` (Dashboard)       — view-state synchronizer
  * `src/frontend/src/pages/TrackingPage.tsx` — view-state synchronizer
  * `src/frontend/src/lib/firebase.ts` — remote store adapter and the
    simulated telemetry generator

Machine arithmetic on coordinates and quantities is modelled over `ℚ`
(the source performs exact linear interpolation; the claims under test are
stated up to "approximately" where floating point could matter).  Promise
rejection is modelled by explicit outcome values; JavaScript truthiness
checks (`if (token)`, `?.length`, `||`) are modelled field by field.
-/

namespace AnnSanjivani

/-! ## Order statuses

The status enumeration used across the pages: the five progress stages plus
the two absorbing terminal states (`cancelled`, `expired`).  `expired`
appears in the SurplusPage termination check. -/

inductive OrderStatus where
  | pending
  | assigned
  | picked_up
  | in_transit
  | delivered
  | cancelled
  | expired
deriving DecidableEq, Repr

/-! ## Request client (`api.ts`)

The request interceptor reads the token from localStorage on every call and,
when the value is truthy, sets the Authorization header to the string
"Bearer " followed by the token.

`localStorage.getItem` returns the stored string or `null`, modelled as
`Option String`; the `if (token)` test is JavaScript truthiness, which is
false for `null` and for the empty string. -/

structure RequestConfig where
  contentType : String
  authorization : Option String
deriving DecidableEq, Repr

/-- The axios instance defaults set at `api.ts:5`: a Content-Type header and
no Authorization header. -/
def baseConfig : RequestConfig :=
  { contentType := "application/json", authorization := none }

/-- JavaScript truthiness of a string value: the empty string is falsy. -/
def jsTruthy (s : String) : Bool := s ≠ ""

/-- The request interceptor (`api.ts:13`): read the token from persistent
storage at call time and attach the bearer header when the value is truthy. -/
def attachAuthToken (storedToken : Option String) (config : RequestConfig) :
    RequestConfig :=
  match storedToken with
  | none => config
  | some t =>
      if jsTruthy t then
        { config with authorization := some ("Bearer " ++ t) }
      else config

/-- One request issued through the client while persistent storage holds
`storedToken`: the interceptor runs on the fresh per-call config derived
from the instance defaults. -/
def issueRequest (storedToken : Option String) : RequestConfig :=
  attachAuthToken storedToken baseConfig

/-! ## Auth store (`store.ts`)

Only the pieces the logout claim touches are embedded: the persisted token
(localStorage), the four store fields, and the fire-and-forget Appwrite
cloud logout. -/

inductive UserRole where
  | restaurant
  | ngo
  | driver
  | admin
deriving DecidableEq, Repr

structure User where
  id : Nat
  email : String
  full_name : String
  phone : Option String
  role : UserRole
  is_active : Bool
  avatar_url : Option String
  created_at : String
deriving DecidableEq, Repr

/-- The `roleDashboardData` payload: a role string plus opaque extra data
(`{ role: string; [key: string]: any }`). -/
structure RoleDashboardData where
  role : String
deriving DecidableEq, Repr

structure AuthStoreState where
  user : Option User
  token : Option String
  isAuthenticated : Bool
  roleDashboardData : Option RoleDashboardData
deriving DecidableEq, Repr

/-- Possible outcomes of the secondary Appwrite cloud logout call
(`appwriteAuth.logout()`): it resolves `true`, resolves `false` (its own
internal catch), or rejects (covered by the `.catch(() => {})` at the call
site). -/
inductive CloudLogoutOutcome where
  | resolvedTrue
  | resolvedFalse
  | rejected
deriving DecidableEq, Repr

/-- `useAuthStore.logout` (`store.ts:43`): remove the token from persistent
storage, fire the cloud logout with its rejection swallowed, and clear the
four store fields.  The cloud outcome is received but never inspected.
Returns the new persisted-token cell and the new store state. -/
def storeLogout (_cloud : CloudLogoutOutcome) (_persistedToken : Option String)
    (_s : AuthStoreState) : Option String × AuthStoreState :=
  (none,
   { user := none, token := none, isAuthenticated := false,
     roleDashboardData := none })

/-! ## Polling-based entity watcher (`SurplusPage.tsx:52`)

After an order is created, a 5-second interval polls `surplusAPI.get(id)`.
Each response updates `orderStage`; when the status is `delivered`,
`cancelled` or `expired` the callback clears its own interval.  A rejected
poll is ignored.  A cleared interval never fires again, so later responses
in a simulated schedule are never requested. -/

/-- The terminal-status test at `SurplusPage.tsx:58`. -/
def isTerminalStatus (s : OrderStatus) : Bool :=
  s = OrderStatus.delivered ∨ s = OrderStatus.cancelled ∨ s = OrderStatus.expired

inductive PollResponse where
  | ok (status : OrderStatus)
  | failed
deriving DecidableEq, Repr

structure WatcherState where
  orderStage : OrderStatus
  timerActive : Bool
deriving DecidableEq, Repr

/-- State right after `setCreatedOrder` delivers an id: `orderStage` is the
initial `'pending'` and the interval is armed. -/
def initWatcher : WatcherState :=
  { orderStage := OrderStatus.pending, timerActive := true }

/-- One firing of the interval callback, processing one poll response: a
successful response stores the status and clears the interval exactly when
the status is terminal; a rejection is ignored (`catch { /* ignore */ }`). -/
def pollTick (w : WatcherState) (r : PollResponse) : WatcherState :=
  match r with
  | PollResponse.ok st =>
      { orderStage := st, timerActive := w.timerActive && !(isTerminalStatus st) }
  | PollResponse.failed => w

/-- Run the watcher against a schedule of responses, one per interval
firing.  The interval only fires while the timer is armed, so once it is
cleared no further response is consumed.  Returns the final state and the
number of polls actually issued. -/
def runWatcher (w : WatcherState) : List PollResponse → WatcherState × Nat
  | [] => (w, 0)
  | r :: rs =>
      if w.timerActive then
        let result := runWatcher (pollTick w r) rs
        (result.1, result.2 + 1)
      else (w, 0)

/-! ## Dashboard view-state synchronizer (`src/unnamed/part_000`)

`fetchData` issues three parallel requests, each individually guarded with
`.catch`: the impact call falls back to the mock impact figures, the orders
call falls back to a second endpoint and then to a `null` payload, and the
role call falls back to `null`.  The impact state is then set
unconditionally; the orders state and the `usingRealOrders` flag are set
only when the orders payload is non-null (an empty array counts, and a
non-array payload is stored as the empty list); the role data is stored
only when truthy.  On the initial call `loading` is cleared in `finally`. -/

/-- Outcome of one network promise: resolved with data, or rejected. -/
inductive FetchOutcome (α : Type) where
  | ok (data : α)
  | failed
deriving DecidableEq, Repr

/-- The impact figures record (shape of `MOCK_IMPACT`). -/
structure Impact where
  total_kg_saved : ℚ
  total_meals_served : ℚ
  total_co2_saved_kg : ℚ
  total_water_saved_liters : ℚ
  total_money_saved_inr : ℚ
  active_restaurants : ℚ
  active_ngos : ℚ
  active_drivers : ℚ
  avg_delivery_time_mins : ℚ
  active_orders : ℚ
  today_kg_saved : ℚ
  today_meals : ℚ
deriving DecidableEq, Repr

/-- `MOCK_IMPACT` (`part_000:25`). -/
def MOCK_IMPACT : Impact :=
  { total_kg_saved := 4850
    total_meals_served := 19400
    total_co2_saved_kg := 12125
    total_water_saved_liters := 4850000
    total_money_saved_inr := 485000
    active_restaurants := 10
    active_ngos := 8
    active_drivers := 12
    avg_delivery_time_mins := 57 / 2
    active_orders := 5
    today_kg_saved := 1563 / 10
    today_meals := 782 }

/-- One order row as rendered by the dashboard (shape of `MOCK_ORDERS`). -/
structure Order where
  id : Nat
  food_description : String
  quantity_kg : ℚ
  status : OrderStatus
  restaurant_name : String
  ngo_name : Option String
  driver_name : Option String
  eta_minutes : ℚ
  distance_km : ℚ
  created_at : String
deriving DecidableEq, Repr

/-- `MOCK_ORDERS` (`part_000:40`), parametrized by the mount-time clock
value that the source inserts via `new Date().toISOString()`. -/
def MOCK_ORDERS (now : String) : List Order :=
  [ { id := 1, food_description := "Dal Makhani + Jeera Rice (50 servings)",
      quantity_kg := 25, status := OrderStatus.in_transit,
      restaurant_name := "Taj Palace Kitchen",
      ngo_name := some "Akshaya Patra Foundation",
      driver_name := some "Rajesh Kumar", eta_minutes := 12,
      distance_km := 26 / 5, created_at := now },
    { id := 2, food_description := "Paneer Butter Masala + Naan (30 servings)",
      quantity_kg := 15, status := OrderStatus.picked_up,
      restaurant_name := "Spice Garden",
      ngo_name := some "Robin Hood Army Mumbai",
      driver_name := some "Amit Sharma", eta_minutes := 22,
      distance_km := 81 / 10, created_at := now },
    { id := 3, food_description := "Chicken Biryani (40 servings)",
      quantity_kg := 20, status := OrderStatus.assigned,
      restaurant_name := "Royal Biryani Centre",
      ngo_name := some "Feeding India (Zomato)",
      driver_name := some "Suresh Patel", eta_minutes := 35,
      distance_km := 123 / 10, created_at := now },
    { id := 4, food_description := "Mixed Veg Thali (60 servings)",
      quantity_kg := 30, status := OrderStatus.pending,
      restaurant_name := "Green Leaf Restaurant",
      ngo_name := none, driver_name := none, eta_minutes := 0,
      distance_km := 0, created_at := now },
    { id := 5, food_description := "Pav Bhaji (35 servings)",
      quantity_kg := 12, status := OrderStatus.delivered,
      restaurant_name := "Mumbai Masala House",
      ngo_name := some "Roti Bank Mumbai",
      driver_name := some "Priya Singh", eta_minutes := 0,
      distance_km := 7 / 2, created_at := now },
    { id := 6, food_description := "Idli Sambar + Chutney (80 servings)",
      quantity_kg := 18, status := OrderStatus.delivered,
      restaurant_name := "Dosa Plaza Express",
      ngo_name := some "Mumbai Seva Foundation",
      driver_name := some "Vikram Yadav", eta_minutes := 0,
      distance_km := 67 / 10, created_at := now } ]

/-- The body carried by a resolved orders response: a JSON array, a
non-array JSON value, or `null` (the final `.catch` fallback also produces
`{ data: null }`). -/
inductive OrdersData where
  | arr (orders : List Order)
  | nonArray
  | nullData
deriving DecidableEq, Repr

/-- The orders call chain
`surplusAPI.myOrders(...).catch(() => surplusAPI.list(...).catch(() => ({data: null})))`:
take the first endpoint's body, else the second's, else `null`. -/
def ordersChain (myOrdersRes listRes : FetchOutcome OrdersData) : OrdersData :=
  match myOrdersRes with
  | FetchOutcome.ok d => d
  | FetchOutcome.failed =>
      match listRes with
      | FetchOutcome.ok d => d
      | FetchOutcome.failed => OrdersData.nullData

structure DashboardState where
  impact : Impact
  orders : List Order
  loading : Bool
  usingRealOrders : Bool
  roleDashboardData : Option RoleDashboardData
deriving DecidableEq, Repr

/-- Dashboard state at mount (`part_000:52`): mock impact, mock orders,
loading, not yet using real orders. -/
def initDashboard (now : String) : DashboardState :=
  { impact := MOCK_IMPACT, orders := MOCK_ORDERS now, loading := true,
    usingRealOrders := false, roleDashboardData := none }

/-- The resolutions of the three guarded calls inside one `fetchData`
invocation, plus its `isInitial` argument. -/
structure FetchEvent where
  isInitial : Bool
  impactRes : FetchOutcome Impact
  myOrdersRes : FetchOutcome OrdersData
  listRes : FetchOutcome OrdersData
  roleRes : FetchOutcome RoleDashboardData
deriving DecidableEq, Repr

/-- One complete `fetchData` invocation (`part_000:58`): impact is stored
unconditionally (falling back to `MOCK_IMPACT` when its call failed);
orders and the `usingRealOrders` flag are updated exactly when the orders
payload is non-null, with a non-array payload stored as `[]`; role data is
stored when present; `loading` is cleared on the initial call. -/
def dashboardFetch (s : DashboardState) (e : FetchEvent) : DashboardState :=
  let impactData :=
    match e.impactRes with
    | FetchOutcome.ok d => d
    | FetchOutcome.failed => MOCK_IMPACT
  let s1 := { s with impact := impactData }
  let s2 :=
    match ordersChain e.myOrdersRes e.listRes with
    | OrdersData.arr os => { s1 with orders := os, usingRealOrders := true }
    | OrdersData.nonArray => { s1 with orders := [], usingRealOrders := true }
    | OrdersData.nullData => s1
  let s3 :=
    match e.roleRes with
    | FetchOutcome.ok d => { s2 with roleDashboardData := some d }
    | FetchOutcome.failed => s2
  if e.isInitial then { s3 with loading := false } else s3

/-- A mounted dashboard instance processing a sequence of completed
`fetchData` invocations (initial call, 15-second timer calls, and
visibility-triggered calls all run the same body). -/
def dashboardRun (s : DashboardState) : List FetchEvent → DashboardState
  | [] => s
  | e :: es => dashboardRun (dashboardFetch s e) es

/-! ### Fetch-trigger bookkeeping for the in-flight-guard claim

`part_000:81`: the mount effect arms a 15-second interval that calls
`fetchData(false)`, and a `visibilitychange` listener that calls
`fetchData(false)` whenever the document has become visible.  Neither path
consults any in-flight state before calling, so each trigger starts a new
fetch unconditionally; `pendingFetches` records the trigger sources of the
fetches currently in flight. -/

inductive FetchSource where
  | initial
  | timer
  | visibility
deriving DecidableEq, Repr

inductive DashTrigger where
  | timerTick
  | visibilityEvent (nowVisible : Bool)
  | fetchSettled (i : Nat)
deriving DecidableEq, Repr

/-- Effect of one trigger on the multiset of in-flight fetches: the timer
always starts a fetch; a visibility event starts a fetch exactly when the
document became visible (`handleVisibility`, `part_000:91`), with no check
of the fetches already pending; a settlement removes the fetch at index
`i`. -/
def dashboardTrigger (pending : List FetchSource) :
    DashTrigger → List FetchSource
  | DashTrigger.timerTick => pending ++ [FetchSource.timer]
  | DashTrigger.visibilityEvent nowVisible =>
      if nowVisible then pending ++ [FetchSource.visibility] else pending
  | DashTrigger.fetchSettled i => pending.eraseIdx i

/-! ## TrackingPage view-state synchronizer (`TrackingPage.tsx`)

`fetchData` awaits `Promise.all([trackingAPI.allLocations(),
trackingAPI.activeJobs()])`; on success each collection is replaced only
when the corresponding payload list is truthy (present and non-empty), the
jobs are re-shaped into delivery rows, and `setIsLive(true)` runs; on any
rejection the catch block keeps the current state. -/

/-- JavaScript `x || dflt` on an optional number (0 is falsy). -/
def jsOrNum (v : Option ℚ) (dflt : ℚ) : ℚ :=
  match v with
  | some x => if x ≠ 0 then x else dflt
  | none => dflt

/-- JavaScript `x || dflt` on an optional string (the empty string is
falsy). -/
def jsOrStr (v : Option String) (dflt : String) : String :=
  match v with
  | some s => if s ≠ "" then s else dflt
  | none => dflt

structure Restaurant where
  id : Nat
  name : String
  lat : ℚ
  lng : ℚ
  cuisine : String
  surplus_kg : ℚ
deriving DecidableEq, Repr

structure NGO where
  id : Nat
  name : String
  lat : ℚ
  lng : ℚ
  capacity : ℚ
  people : ℚ
deriving DecidableEq, Repr

structure Driver where
  id : Nat
  name : String
  lat : ℚ
  lng : ℚ
  vehicle : String
  available : Bool
  rating : ℚ
deriving DecidableEq, Repr

structure Delivery where
  id : Nat
  fromName : String
  toName : String
  driver : String
  status : OrderStatus
  food : String
  eta : ℚ
  distance : ℚ
  progress : ℚ
deriving DecidableEq, Repr

/-- `RESTAURANTS_FALLBACK` (`TrackingPage.tsx:12`). -/
def RESTAURANTS_FALLBACK : List Restaurant :=
  [ { id := 1, name := "Taj Palace Kitchen", lat := 189217 / 10000,
      lng := 728332 / 10000, cuisine := "Multi-cuisine", surplus_kg := 45 },
    { id := 2, name := "Spice Garden", lat := 190596 / 10000,
      lng := 728295 / 10000, cuisine := "North Indian", surplus_kg := 25 },
    { id := 3, name := "Mumbai Masala House", lat := 190948 / 10000,
      lng := 728267 / 10000, cuisine := "Street Food", surplus_kg := 35 },
    { id := 4, name := "Royal Biryani Centre", lat := 189552 / 10000,
      lng := 728371 / 10000, cuisine := "Mughlai", surplus_kg := 30 },
    { id := 5, name := "Green Leaf Restaurant", lat := 191136 / 10000,
      lng := 728697 / 10000, cuisine := "South Indian", surplus_kg := 20 },
    { id := 6, name := "Hotel Saffron", lat := 189930 / 10000,
      lng := 728263 / 10000, cuisine := "Continental", surplus_kg := 40 },
    { id := 7, name := "Dosa Plaza Express", lat := 190178 / 10000,
      lng := 728478 / 10000, cuisine := "South Indian", surplus_kg := 15 },
    { id := 8, name := "Punjabi Dhaba Premium", lat := 191176 / 10000,
      lng := 729060 / 10000, cuisine := "Punjabi", surplus_kg := 28 } ]

/-- `NGOS_FALLBACK` (`TrackingPage.tsx:22`). -/
def NGOS_FALLBACK : List NGO :=
  [ { id := 1, name := "Akshaya Patra Foundation", lat := 190988 / 10000,
      lng := 728315 / 10000, capacity := 200, people := 500 },
    { id := 2, name := "Robin Hood Army", lat := 190650 / 10000,
      lng := 728646 / 10000, capacity := 150, people := 350 },
    { id := 3, name := "Feeding India", lat := 191268 / 10000,
      lng := 728325 / 10000, capacity := 300, people := 800 },
    { id := 4, name := "Roti Bank Mumbai", lat := 190233 / 10000,
      lng := 728388 / 10000, capacity := 100, people := 250 },
    { id := 5, name := "Annakshetra Trust", lat := 192312 / 10000,
      lng := 728567 / 10000, capacity := 250, people := 600 } ]

/-- `DRIVERS_FALLBACK` (`TrackingPage.tsx:29`). -/
def DRIVERS_FALLBACK : List Driver :=
  [ { id := 1, name := "Rajesh K.", lat := 19042 / 1000, lng := 72855 / 1000,
      vehicle := "bike", available := true, rating := 49 / 10 },
    { id := 2, name := "Amit S.", lat := 19078 / 1000, lng := 72832 / 1000,
      vehicle := "auto", available := true, rating := 47 / 10 },
    { id := 3, name := "Suresh P.", lat := 18965 / 1000, lng := 72841 / 1000,
      vehicle := "van", available := false, rating := 48 / 10 },
    { id := 4, name := "Priya S.", lat := 19105 / 1000, lng := 72867 / 1000,
      vehicle := "bike", available := true, rating := 5 },
    { id := 5, name := "Vikram Y.", lat := 19132 / 1000, lng := 72849 / 1000,
      vehicle := "auto", available := true, rating := 46 / 10 } ]

/-- `DELIVERIES_FALLBACK` (`TrackingPage.tsx:36`). -/
def DELIVERIES_FALLBACK : List Delivery :=
  [ { id := 1, fromName := "Taj Palace Kitchen",
      toName := "Akshaya Patra Foundation", driver := "Rajesh K.",
      status := OrderStatus.in_transit,
      food := "Dal Makhani + Rice (50 servings)", eta := 12,
      distance := 26 / 5, progress := 65 },
    { id := 2, fromName := "Spice Garden", toName := "Robin Hood Army",
      driver := "Amit S.", status := OrderStatus.picked_up,
      food := "Paneer Masala + Naan (30 servings)", eta := 22,
      distance := 81 / 10, progress := 35 },
    { id := 3, fromName := "Royal Biryani Centre", toName := "Feeding India",
      driver := "Suresh P.", status := OrderStatus.assigned,
      food := "Chicken Biryani (40 servings)", eta := 35,
      distance := 123 / 10, progress := 10 } ]

/-- An NGO row as returned by the locations endpoint, before the page
re-shapes it (`people: n.people_served || n.capacity_kg * 2`). -/
structure ApiNgo where
  id : Nat
  name : String
  lat : ℚ
  lng : ℚ
  capacity : ℚ
  people_served : Option ℚ
  capacity_kg : ℚ
deriving DecidableEq, Repr

def mapApiNgo (n : ApiNgo) : NGO :=
  { id := n.id, name := n.name, lat := n.lat, lng := n.lng,
    capacity := n.capacity,
    people := jsOrNum n.people_served (n.capacity_kg * 2) }

/-- A driver row as returned by the locations endpoint, before the page
fills in a default display name. -/
structure ApiDriver where
  id : Nat
  name : Option String
  lat : ℚ
  lng : ℚ
  vehicle : String
  available : Bool
  rating : ℚ
deriving DecidableEq, Repr

def mapApiDriver (d : ApiDriver) : Driver :=
  { id := d.id, name := jsOrStr d.name ("Driver #" ++ toString d.id),
    lat := d.lat, lng := d.lng, vehicle := d.vehicle,
    available := d.available, rating := d.rating }

/-- An active-jobs row as returned by the API; optional fields model the
`?.`-guarded accesses in the mapping at `TrackingPage.tsx:69`. -/
structure ApiJob where
  id : Nat
  pickup_name : Option String
  dropoff_name : Option String
  driver_name : Option String
  status : OrderStatus
  food_description : String
  servings : Nat
  eta_minutes : Option ℚ
  distance_km : Option ℚ
deriving DecidableEq, Repr

/-- `statusProgressMap[j.status] || 10` (`TrackingPage.tsx:70`). -/
def statusProgress (s : OrderStatus) : ℚ :=
  match s with
  | OrderStatus.assigned => 15
  | OrderStatus.picked_up => 45
  | OrderStatus.in_transit => 75
  | _ => 10

def mapApiJob (j : ApiJob) : Delivery :=
  { id := j.id,
    fromName := jsOrStr j.pickup_name ("Restaurant"),
    toName := jsOrStr j.dropoff_name ("NGO"),
    driver := jsOrStr j.driver_name ("Assigning..."),
    status := j.status,
    food := j.food_description ++ " (" ++ toString j.servings ++ " servings)",
    eta := jsOrNum j.eta_minutes 0,
    distance := jsOrNum j.distance_km 0,
    progress := statusProgress j.status }

/-- Body of a successful `allLocations` response; each collection may be
absent. -/
structure LocationsPayload where
  restaurants : Option (List Restaurant)
  ngos : Option (List ApiNgo)
  drivers : Option (List ApiDriver)
deriving DecidableEq, Repr

/-- The pair of bodies produced when both awaited promises resolve. -/
structure TrackingPayload where
  locations : LocationsPayload
  jobs : Option (List ApiJob)
deriving DecidableEq, Repr

structure TrackingState where
  restaurants : List Restaurant
  ngos : List NGO
  drivers : List Driver
  deliveries : List Delivery
  isLive : Bool
deriving DecidableEq, Repr

/-- TrackingPage state at mount (`TrackingPage.tsx:45`): all four
collections hold the fallback datasets and `isLive` starts `true`. -/
def initTracking : TrackingState :=
  { restaurants := RESTAURANTS_FALLBACK, ngos := NGOS_FALLBACK,
    drivers := DRIVERS_FALLBACK, deliveries := DELIVERIES_FALLBACK,
    isLive := true }

/-- One `fetchData` invocation (`TrackingPage.tsx:55`): on rejection the
state is kept; on success each collection is replaced exactly when its
payload list is present and non-empty (`?.length` truthiness), and
`isLive` is set to `true`. -/
def trackingFetch (s : TrackingState) (res : FetchOutcome TrackingPayload) :
    TrackingState :=
  match res with
  | FetchOutcome.failed => s
  | FetchOutcome.ok p =>
      let s1 :=
        match p.locations.restaurants with
        | some rs => if rs.length ≠ 0 then { s with restaurants := rs } else s
        | none => s
      let s2 :=
        match p.locations.ngos with
        | some ns =>
            if ns.length ≠ 0 then { s1 with ngos := ns.map mapApiNgo } else s1
        | none => s1
      let s3 :=
        match p.locations.drivers with
        | some ds =>
            if ds.length ≠ 0 then { s2 with drivers := ds.map mapApiDriver }
            else s2
        | none => s2
      let s4 :=
        match p.jobs with
        | some js =>
            if js.length ≠ 0 then { s3 with deliveries := js.map mapApiJob }
            else s3
        | none => s3
      { s4 with isLive := true }

/-- A mounted TrackingPage instance processing a sequence of completed
fetches (the mount fetch, the 10-second timer fetches, and manual
refresh-button fetches all run the same body). -/
def trackingRun (s : TrackingState) : List (FetchOutcome TrackingPayload) →
    TrackingState
  | [] => s
  | r :: rs => trackingRun (trackingFetch s r) rs

/-! ## Remote store adapter (`firebase.ts`)

`updateDriverLocation` and `upsertActiveDelivery` both call the Firestore
`setDoc(docRef, fields, merge)` primitive inside `try`, returning `true` on
success and `false` after logging on any error.  The merge-write primitive
itself belongs to the external Firestore SDK; it is embedded here by its
documented contract, which the spec restates: create the document if it is
absent, overlay exactly the provided fields onto it, and leave every other
field untouched. -/

inductive FsValue where
  | num (x : ℚ)
  | str (s : String)
  | boolean (b : Bool)
  | serverTime (t : Nat)
deriving DecidableEq, Repr

/-- A Firestore document: a partial map from field names to values. -/
def FsDoc := String → Option FsValue

def emptyFsDoc : FsDoc := fun _ => none

/-- A Firestore database: collection name and document id to document. -/
def FsStore := String → String → Option FsDoc

def emptyFsStore : FsStore := fun _ _ => none

def DRIVER_LOCATIONS_COL : String := "driver_locations"
def ACTIVE_DELIVERIES_COL : String := "active_deliveries"

/-- Overlay a list of written fields onto a document: a field named in the
write takes the written value, every other field keeps its previous
value. -/
def mergeFields (d : FsDoc) (fields : List (String × FsValue)) : FsDoc :=
  fun k =>
    match fields.lookup k with
    | some v => some v
    | none => d k

/-- The Firestore merge-upsert as invoked at `firebase.ts:105` and
`firebase.ts:150` (`setDoc` with the merge option): create the document if
absent, then overlay the provided fields. -/
def setDocMerge (store : FsStore) (col id : String)
    (fields : List (String × FsValue)) : FsStore :=
  fun c i =>
    if c = col ∧ i = id then
      some (mergeFields
        (match store col id with
         | some d => d
         | none => emptyFsDoc) fields)
    else store c i

/-- The argument record of `updateDriverLocation` (`firebase.ts:92`). -/
structure DriverLocationInput where
  driver_id : String
  driver_name : String
  lat : ℚ
  lng : ℚ
  heading : ℚ
  speed : ℚ
  vehicle_type : String
  is_available : Bool
  current_order_id : Option String
deriving DecidableEq, Repr

/-- The object-literal spread written at `firebase.ts:105`: all the data
fields (the optional one only when present) plus a server-generated
`updated_at`. -/
def driverLocationFields (d : DriverLocationInput) (serverNow : Nat) :
    List (String × FsValue) :=
  [("driver_id", FsValue.str d.driver_id),
   ("driver_name", FsValue.str d.driver_name),
   ("lat", FsValue.num d.lat),
   ("lng", FsValue.num d.lng),
   ("heading", FsValue.num d.heading),
   ("speed", FsValue.num d.speed),
   ("vehicle_type", FsValue.str d.vehicle_type),
   ("is_available", FsValue.boolean d.is_available)] ++
  (match d.current_order_id with
   | some oid => [("current_order_id", FsValue.str oid)]
   | none => []) ++
  [("updated_at", FsValue.serverTime serverNow)]

/-- `firebaseTracking.updateDriverLocation` (`firebase.ts:92`): the merge
write runs inside `try`; `writeOk` is whether the underlying store write
succeeds.  On success the call returns `true` with the updated store, on
any error it returns `false` with the store unchanged — the error is
caught, never re-thrown. -/
def updateDriverLocation (writeOk : Bool) (serverNow : Nat) (store : FsStore)
    (data : DriverLocationInput) : Bool × FsStore :=
  if writeOk then
    (true, setDocMerge store DRIVER_LOCATIONS_COL data.driver_id
      (driverLocationFields data serverNow))
  else (false, store)

/-- The `ActiveDelivery` record (`firebase.ts:65`); `created_at` and
`updated_at` are untyped in the source and modelled as raw values. -/
structure ActiveDelivery where
  delivery_id : String
  donation_id : String
  driver_id : String
  driver_name : String
  restaurant_name : String
  ngo_name : String
  pickup_lat : ℚ
  pickup_lng : ℚ
  dropoff_lat : ℚ
  dropoff_lng : ℚ
  driver_lat : ℚ
  driver_lng : ℚ
  status : String
  eta_minutes : ℚ
  distance_km : ℚ
  food_description : String
  quantity_kg : ℚ
  created_at : FsValue
  updated_at : FsValue
deriving DecidableEq, Repr

/-- The object-literal spread written at `firebase.ts:150`: all the data
fields, with the spread `updated_at` overridden by the later
server-generated `updated_at` key (last key wins in an object literal). -/
def activeDeliveryFields (d : ActiveDelivery) (serverNow : Nat) :
    List (String × FsValue) :=
  [("delivery_id", FsValue.str d.delivery_id),
   ("donation_id", FsValue.str d.donation_id),
   ("driver_id", FsValue.str d.driver_id),
   ("driver_name", FsValue.str d.driver_name),
   ("restaurant_name", FsValue.str d.restaurant_name),
   ("ngo_name", FsValue.str d.ngo_name),
   ("pickup_lat", FsValue.num d.pickup_lat),
   ("pickup_lng", FsValue.num d.pickup_lng),
   ("dropoff_lat", FsValue.num d.dropoff_lat),
   ("dropoff_lng", FsValue.num d.dropoff_lng),
   ("driver_lat", FsValue.num d.driver_lat),
   ("driver_lng", FsValue.num d.driver_lng),
   ("status", FsValue.str d.status),
   ("eta_minutes", FsValue.num d.eta_minutes),
   ("distance_km", FsValue.num d.distance_km),
   ("food_description", FsValue.str d.food_description),
   ("quantity_kg", FsValue.num d.quantity_kg),
   ("created_at", d.created_at),
   ("updated_at", FsValue.serverTime serverNow)]

/-- `firebaseTracking.upsertActiveDelivery` (`firebase.ts:147`): same
try-return-boolean discipline as `updateDriverLocation`. -/
def upsertActiveDelivery (writeOk : Bool) (serverNow : Nat) (store : FsStore)
    (data : ActiveDelivery) : Bool × FsStore :=
  if writeOk then
    (true, setDocMerge store ACTIVE_DELIVERIES_COL data.delivery_id
      (activeDeliveryFields data serverNow))
  else (false, store)

/-! ## Simulated telemetry generator (`firebase.ts:196`)

`startDriverSimulation` arms a 10-second interval over a closure variable
`progress` starting at 0.  Each tick adds 0.02; when the sum reaches 1 the
callback clears its own interval and clamps `progress` to 1; it then emits
one update through `updateDriverLocation` with the linearly interpolated
position, the normalized constant heading, and a randomized speed that is
exactly 0 once `progress` is 1.  Ticks are numbered from 1. -/

structure SimConfig where
  driverId : String
  driverName : String
  pickupLat : ℚ
  pickupLng : ℚ
  dropoffLat : ℚ
  dropoffLng : ℚ
deriving DecidableEq, Repr

structure SimState where
  progress : ℚ
  timerActive : Bool
deriving DecidableEq, Repr

def initSim : SimState := { progress := 0, timerActive := true }

/-- The progress/termination part of one interval callback
(`firebase.ts:199`): add 0.02; on reaching 1, clear the interval and clamp
to exactly 1.  A cleared interval never runs again. -/
def simStep (s : SimState) : SimState :=
  if s.timerActive then
    let p := s.progress + 2 / 100
    if 1 ≤ p then { progress := 1, timerActive := false }
    else { progress := p, timerActive := true }
  else s

def simIter : Nat → SimState
  | 0 => initSim
  | n + 1 => simStep (simIter n)

/-- `Math.atan2 y x`, embedded as the argument of the complex number
`x + y*I` (range `(-pi, pi]`, and 0 at the origin, as in JavaScript). -/
noncomputable def jsAtan2 (y x : ℝ) : ℝ := Complex.arg ⟨x, y⟩

/-- The heading computed inside every tick (`firebase.ts:210`): the angle
from pickup to dropoff in degrees — a tick-independent expression. -/
noncomputable def simHeadingRaw (c : SimConfig) : ℝ :=
  jsAtan2 ((c.dropoffLng : ℝ) - (c.pickupLng : ℝ))
    ((c.dropoffLat : ℝ) - (c.pickupLat : ℝ)) * (180 / Real.pi)

/-- The normalization `heading >= 0 ? heading : heading + 360`
(`firebase.ts:217`). -/
noncomputable def simHeading (c : SimConfig) : ℝ :=
  if 0 ≤ simHeadingRaw c then simHeadingRaw c else simHeadingRaw c + 360

/-- The update object the simulation passes to `updateDriverLocation` on
one tick (`firebase.ts:212`). -/
structure SimEmit where
  driver_id : String
  driver_name : String
  lat : ℚ
  lng : ℚ
  heading : ℝ
  speed : ℚ
  vehicle_type : String
  is_available : Bool
  current_order_id : String

/-- The update emitted on tick `n` (ticks numbered from 1), or `none` when
the interval has already been cleared before that tick: the callback runs
on the state left by the previous `n - 1` ticks only while the timer is
armed, advances it, and emits from the advanced (clamped) progress.
`rand n` is the `Math.random()` draw of that tick. -/
noncomputable def simEmitAt (c : SimConfig) (rand : Nat → ℚ) (n : Nat) :
    Option SimEmit :=
  let s := simIter (n - 1)
  if s.timerActive then
    let s1 := simStep s
    some
      { driver_id := c.driverId, driver_name := c.driverName,
        lat := c.pickupLat + (c.dropoffLat - c.pickupLat) * s1.progress,
        lng := c.pickupLng + (c.dropoffLng - c.pickupLng) * s1.progress,
        heading := simHeading c,
        speed := if s1.progress < 1 then 25 + 10 * rand n else 0,
        vehicle_type := "bike", is_available := false,
        current_order_id := "order_" ++ c.driverId }
  else none

/-! ## Concrete sample data used by witnesses and counterexamples -/

/-- The demo run of the claims: a simulation from (0, 0) to (10, 10). -/
def demoSim : SimConfig :=
  { driverId := "driver-1", driverName := "Demo Driver",
    pickupLat := 0, pickupLng := 0, dropoffLat := 10, dropoffLng := 10 }

/-- A live impact payload, distinct from `MOCK_IMPACT`. -/
def liveImpactA : Impact :=
  { total_kg_saved := 5000
    total_meals_served := 20000
    total_co2_saved_kg := 12500
    total_water_saved_liters := 5000000
    total_money_saved_inr := 500000
    active_restaurants := 11
    active_ngos := 9
    active_drivers := 13
    avg_delivery_time_mins := 27
    active_orders := 6
    today_kg_saved := 160
    today_meals := 800 }

/-- A second live impact payload, distinct from `MOCK_IMPACT`. -/
def liveImpactB : Impact :=
  { total_kg_saved := 6000
    total_meals_served := 24000
    total_co2_saved_kg := 15000
    total_water_saved_liters := 6000000
    total_money_saved_inr := 600000
    active_restaurants := 12
    active_ngos := 10
    active_drivers := 14
    avg_delivery_time_mins := 26
    active_orders := 7
    today_kg_saved := 170
    today_meals := 900 }

/-- A live order row returned by the orders endpoint. -/
def liveOrderA : Order :=
  { id := 101, food_description := "Veg Pulao (20 servings)",
    quantity_kg := 10, status := OrderStatus.pending,
    restaurant_name := "Live Kitchen", ngo_name := none,
    driver_name := none, eta_minutes := 0, distance_km := 0,
    created_at := "2026-10-12T00:00:00Z" }

/-- A fully successful initial dashboard fetch delivering `liveImpactA` and
one live order. -/
def evInitialSuccessA : FetchEvent :=
  { isInitial := true, impactRes := FetchOutcome.ok liveImpactA,
    myOrdersRes := FetchOutcome.ok (OrdersData.arr [liveOrderA]),
    listRes := FetchOutcome.failed, roleRes := FetchOutcome.failed }

/-- A fully successful initial dashboard fetch delivering `liveImpactB` and
one live order. -/
def evInitialSuccessB : FetchEvent :=
  { isInitial := true, impactRes := FetchOutcome.ok liveImpactB,
    myOrdersRes := FetchOutcome.ok (OrdersData.arr [liveOrderA]),
    listRes := FetchOutcome.failed, roleRes := FetchOutcome.failed }

/-- A periodic re-fetch in which every one of the three calls rejects. -/
def evAllFailed : FetchEvent :=
  { isInitial := false, impactRes := FetchOutcome.failed,
    myOrdersRes := FetchOutcome.failed, listRes := FetchOutcome.failed,
    roleRes := FetchOutcome.failed }

/-! # Theorems

First a set of shared helper lemmas about the simulator loop, then one
theorem per claim. -/

/-- While fewer than 50 ticks have run, the timer is armed and progress is
`n / 50`. -/
theorem simIter_active (n : Nat) (h : n < 50) :
    simIter n = { progress := (n : ℚ) / 50, timerActive := true } := by
  induction n with
  | zero => simp [simIter, initSim]
  | succ k ih =>
    have hk : k < 50 := Nat.lt_of_succ_lt h
    have hq : ((k : ℚ) + 1) < 50 := by exact_mod_cast h
    have hnot : ¬ (1 : ℚ) ≤ (k : ℚ) / 50 + 2 / 100 := by
      rw [not_le]
      have heq : (k : ℚ) / 50 + 2 / 100 = ((k : ℚ) + 1) / 50 := by ring
      rw [heq, div_lt_one (by norm_num : (0 : ℚ) < 50)]
      linarith
    rw [simIter, ih hk]
    simp [simStep, hnot]
    ring

/-- Tick 50 is the first time progress reaches 1: the callback clamps it to
exactly 1 and clears the interval. -/
theorem simIter_fifty : simIter 50 = { progress := 1, timerActive := false } := by
  have h49 : simIter 49 = { progress := (49 : ℚ) / 50, timerActive := true } := by
    have h := simIter_active 49 (by norm_num)
    simpa using h
  have hstep : simIter 50 = simStep (simIter 49) := rfl
  rw [hstep, h49]
  norm_num [simStep]

/-- Once 50 ticks have run the timer stays cleared and progress stays
clamped at 1. -/
theorem simIter_ge_fifty (n : Nat) (h : 50 ≤ n) :
    simIter n = { progress := 1, timerActive := false } := by
  induction n with
  | zero => omega
  | succ k ih =>
    rcases Nat.lt_or_ge k 50 with hk | hk
    · have hk50 : k + 1 = 50 := by omega
      rw [hk50]
      exact simIter_fifty
    · rw [simIter, ih hk]
      simp [simStep]

/-- Closed form of the update emitted on ticks 1 through 50. -/
theorem simEmitAt_closed (c : SimConfig) (rand : Nat → ℚ) (n : Nat)
    (h1 : 1 ≤ n) (h2 : n ≤ 50) :
    simEmitAt c rand n = some
      { driver_id := c.driverId, driver_name := c.driverName,
        lat := c.pickupLat + (c.dropoffLat - c.pickupLat) * ((n : ℚ) / 50),
        lng := c.pickupLng + (c.dropoffLng - c.pickupLng) * ((n : ℚ) / 50),
        heading := simHeading c,
        speed := if n < 50 then 25 + 10 * rand n else 0,
        vehicle_type := "bike", is_available := false,
        current_order_id := "order_" ++ c.driverId } := by
  have hpred : n - 1 < 50 := by omega
  have hs : simIter (n - 1) =
      { progress := ((n - 1 : Nat) : ℚ) / 50, timerActive := true } :=
    simIter_active _ hpred
  have hstep : simStep (simIter (n - 1)) = simIter n := by
    have hn : n - 1 + 1 = n := by omega
    conv_rhs => rw [← hn]
    rfl
  rcases Nat.lt_or_ge n 50 with hn50 | hn50
  · have hsn : simIter n = { progress := (n : ℚ) / 50, timerActive := true } :=
      simIter_active n hn50
    have hlt : ((n : ℚ) / 50) < 1 := by
      rw [div_lt_one (by norm_num : (0 : ℚ) < 50)]
      exact_mod_cast hn50
    simp only [simEmitAt]
    rw [hstep, hsn, hs]
    simp [hlt, hn50]
  · have hn50eq : n = 50 := by omega
    subst hn50eq
    have hsn : simIter 50 = { progress := 1, timerActive := false } :=
      simIter_fifty
    simp only [simEmitAt]
    rw [hstep, hsn, hs]
    norm_num

/-- After tick 50 the interval is cleared, so no further update is
emitted. -/
theorem simEmitAt_after (c : SimConfig) (rand : Nat → ℚ) (n : Nat)
    (h : 50 < n) : simEmitAt c rand n = none := by
  have hs : simIter (n - 1) = { progress := 1, timerActive := false } :=
    simIter_ge_fifty _ (by omega)
  simp [simEmitAt, hs]

/-- The normalized heading lies in `[0, 360)`: the raw atan2 angle in
degrees lies in `(-180, 180]`, and adding 360 to a negative value lands in
`(180, 360)`. -/
theorem simHeading_range (c : SimConfig) :
    0 ≤ simHeading c ∧ simHeading c < 360 := by
  have hpos : (0 : ℝ) < 180 / Real.pi := by positivity
  have hraw_le : simHeadingRaw c ≤ 180 := by
    have harg : Complex.arg
        ⟨(c.dropoffLat : ℝ) - (c.pickupLat : ℝ),
         (c.dropoffLng : ℝ) - (c.pickupLng : ℝ)⟩ ≤ Real.pi :=
      Complex.arg_le_pi _
    have h := mul_le_mul_of_nonneg_right harg (le_of_lt hpos)
    have hpi : Real.pi * (180 / Real.pi) = 180 := by
      field_simp
    calc simHeadingRaw c
        = Complex.arg
            ⟨(c.dropoffLat : ℝ) - (c.pickupLat : ℝ),
             (c.dropoffLng : ℝ) - (c.pickupLng : ℝ)⟩ * (180 / Real.pi) := rfl
      _ ≤ Real.pi * (180 / Real.pi) := h
      _ = 180 := hpi
  have hraw_gt : -180 < simHeadingRaw c := by
    have harg : -Real.pi < Complex.arg
        ⟨(c.dropoffLat : ℝ) - (c.pickupLat : ℝ),
         (c.dropoffLng : ℝ) - (c.pickupLng : ℝ)⟩ :=
      Complex.neg_pi_lt_arg _
    have h := mul_lt_mul_of_pos_right harg hpos
    have hpi : -Real.pi * (180 / Real.pi) = -180 := by
      field_simp
      ring
    calc (-180 : ℝ) = -Real.pi * (180 / Real.pi) := hpi.symm
      _ < Complex.arg
            ⟨(c.dropoffLat : ℝ) - (c.pickupLat : ℝ),
             (c.dropoffLng : ℝ) - (c.pickupLng : ℝ)⟩ * (180 / Real.pi) := h
      _ = simHeadingRaw c := rfl
  unfold simHeading
  split
  · constructor
    · assumption
    · linarith
  · constructor
    · linarith
    · linarith

/-- **C3** (telemetry interpolation and termination): on every tick `n`
from 1 to 50 the emitted position is start plus (end minus start) times
`min (0.02 * n) 1`; after tick 50 the interval is cleared and nothing is
emitted; tick 50 itself is the single final update and carries speed
exactly 0; for the demo run from (0,0) to (10,10), tick 25 emits position
(5, 5). -/
theorem telemetry_interpolation_termination :
    ∀ (c : SimConfig) (rand : Nat → ℚ) (n : Nat),
      (1 ≤ n → n ≤ 50 →
        simEmitAt c rand n = some
          { driver_id := c.driverId, driver_name := c.driverName,
            lat := c.pickupLat +
              (c.dropoffLat - c.pickupLat) * min ((n : ℚ) * (2 / 100)) 1,
            lng := c.pickupLng +
              (c.dropoffLng - c.pickupLng) * min ((n : ℚ) * (2 / 100)) 1,
            heading := simHeading c,
            speed := if n < 50 then 25 + 10 * rand n else 0,
            vehicle_type := "bike", is_available := false,
            current_order_id := "order_" ++ c.driverId }) ∧
      (50 < n → simEmitAt c rand n = none) ∧
      (simIter 50).timerActive = false ∧
      (simEmitAt c rand 50).map SimEmit.speed = some 0 ∧
      (simEmitAt demoSim rand 25).map SimEmit.lat = some 5 ∧
      (simEmitAt demoSim rand 25).map SimEmit.lng = some 5 := by
  intro c rand n
  refine ⟨?_, ?_, ?_, ?_, ?_, ?_⟩
  · intro h1 h2
    have hle : (n : ℚ) * (2 / 100) ≤ 1 := by
      have : (n : ℚ) ≤ 50 := by exact_mod_cast h2
      linarith
    have hmin : min ((n : ℚ) * (2 / 100)) 1 = (n : ℚ) / 50 := by
      rw [min_eq_left hle]
      ring
    rw [simEmitAt_closed c rand n h1 h2, hmin]
  · exact simEmitAt_after c rand n
  · rw [simIter_fifty]
  · rw [simEmitAt_closed c rand 50 (by norm_num) (by norm_num)]
    norm_num
  · rw [simEmitAt_closed demoSim rand 25 (by norm_num) (by norm_num)]
    norm_num [demoSim]
  · rw [simEmitAt_closed demoSim rand 25 (by norm_num) (by norm_num)]
    norm_num [demoSim]

/-- Witness for C3 at tick 25 of the demo run with the random draw fixed
to one half. -/
theorem telemetry_interpolation_termination_witness :
    1 ≤ 25 ∧ 25 ≤ 50 ∧
    simEmitAt demoSim (fun _ => 1 / 2) 25 = some
      { driver_id := "driver-1", driver_name := "Demo Driver",
        lat := 5, lng := 5, heading := simHeading demoSim, speed := 30,
        vehicle_type := "bike", is_available := false,
        current_order_id := "order_driver-1" } := by
  refine ⟨by norm_num, by norm_num, ?_⟩
  have h := (telemetry_interpolation_termination demoSim (fun _ => 1 / 2) 25).1
    (by norm_num) (by norm_num)
  rw [h]
  norm_num [demoSim]
  rfl

/-- **C9** (heading correctness): every update emitted by a simulation run
carries the same heading — the tick-independent angle from start to end —
and that heading lies in `[0, 360)` degrees. -/
theorem heading_constant_and_in_range :
    ∀ (c : SimConfig) (rand : Nat → ℚ) (n : Nat) (e : SimEmit),
      simEmitAt c rand n = some e →
      e.heading = simHeading c ∧ 0 ≤ simHeading c ∧ simHeading c < 360 := by
  intro c rand n e he
  refine ⟨?_, (simHeading_range c).1, (simHeading_range c).2⟩
  simp only [simEmitAt] at he
  by_cases h : (simIter (n - 1)).timerActive
  · simp only [h, if_true] at he
    cases he
    rfl
  · simp only [h] at he
    simp at he

/-- Witness for C9 at tick 1 of the demo run. -/
theorem heading_constant_and_in_range_witness :
    simEmitAt demoSim (fun _ => 1 / 2) 1 = some
      { driver_id := "driver-1", driver_name := "Demo Driver",
        lat := 1 / 5, lng := 1 / 5, heading := simHeading demoSim,
        speed := 30, vehicle_type := "bike", is_available := false,
        current_order_id := "order_driver-1" } ∧
    simHeading demoSim = simHeading demoSim ∧
    0 ≤ simHeading demoSim ∧ simHeading demoSim < 360 := by
  have hemit : simEmitAt demoSim (fun _ => 1 / 2) 1 = some
      { driver_id := "driver-1", driver_name := "Demo Driver",
        lat := 1 / 5, lng := 1 / 5, heading := simHeading demoSim,
        speed := 30, vehicle_type := "bike", is_available := false,
        current_order_id := "order_driver-1" } := by
    rw [simEmitAt_closed demoSim (fun _ => 1 / 2) 1 (by norm_num) (by norm_num)]
    norm_num [demoSim]
    rfl
  have h := heading_constant_and_in_range demoSim (fun _ => 1 / 2) 1 _ hemit
  exact ⟨hemit, rfl, h.2.1, h.2.2⟩

/-- A cleared interval never fires: once `timerActive` is false, no poll is
issued no matter how many responses the schedule still holds. -/
theorem runWatcher_inactive (w : WatcherState) (rs : List PollResponse)
    (h : w.timerActive = false) : runWatcher w rs = (w, 0) := by
  cases rs with
  | nil => rfl
  | cons r rs => simp [runWatcher, h]

/-- **C2** (watcher termination): processing a terminal response clears the
interval inside that same callback; a cleared interval issues no further
poll; and the concrete schedule pending, assigned, picked-up, delivered
yields exactly 4 polls with the timer cleared after the 4th, regardless of
any responses that a longer schedule would have held. -/
theorem watcher_termination :
    (∀ (w : WatcherState) (st : OrderStatus),
        isTerminalStatus st = true →
        (pollTick w (PollResponse.ok st)).timerActive = false) ∧
    (∀ (w : WatcherState) (rs : List PollResponse),
        w.timerActive = false → runWatcher w rs = (w, 0)) ∧
    (∀ (extra : List PollResponse),
        runWatcher initWatcher
          ([PollResponse.ok OrderStatus.pending,
            PollResponse.ok OrderStatus.assigned,
            PollResponse.ok OrderStatus.picked_up,
            PollResponse.ok OrderStatus.delivered] ++ extra) =
          ({ orderStage := OrderStatus.delivered, timerActive := false }, 4)) := by
  refine ⟨?_, ?_, ?_⟩
  · intro w st h
    simp [pollTick, h]
  · intro w rs h
    exact runWatcher_inactive w rs h
  · intro extra
    have hstop := runWatcher_inactive
      { orderStage := OrderStatus.delivered, timerActive := false } extra rfl
    simp [runWatcher, pollTick, initWatcher, isTerminalStatus, hstop]

/-- Witness for C2: the delivered status is terminal, processing it clears
the timer, and the 4-response schedule followed by one extra response
still produces exactly 4 polls. -/
theorem watcher_termination_witness :
    isTerminalStatus OrderStatus.delivered = true ∧
    (pollTick initWatcher (PollResponse.ok OrderStatus.delivered)).timerActive
      = false ∧
    runWatcher initWatcher
      ([PollResponse.ok OrderStatus.pending,
        PollResponse.ok OrderStatus.assigned,
        PollResponse.ok OrderStatus.picked_up,
        PollResponse.ok OrderStatus.delivered] ++ [PollResponse.failed]) =
      ({ orderStage := OrderStatus.delivered, timerActive := false }, 4) :=
  ⟨by decide,
   watcher_termination.1 initWatcher OrderStatus.delivered (by decide),
   watcher_termination.2.2 [PollResponse.failed]⟩

/-- One dashboard fetch never lowers the `usingRealOrders` flag. -/
theorem dashboardFetch_flag_mono (s : DashboardState) (e : FetchEvent)
    (h : s.usingRealOrders = true) :
    (dashboardFetch s e).usingRealOrders = true := by
  cases hd : ordersChain e.myOrdersRes e.listRes <;>
    cases hr : e.roleRes <;> cases hi : e.isInitial <;>
    simp [dashboardFetch, hd, hr, hi, h]

/-- When the orders payload is null, a dashboard fetch preserves the orders
list and the `usingRealOrders` flag. -/
theorem dashboardFetch_null_orders (s : DashboardState) (e : FetchEvent)
    (h : ordersChain e.myOrdersRes e.listRes = OrdersData.nullData) :
    (dashboardFetch s e).orders = s.orders ∧
    (dashboardFetch s e).usingRealOrders = s.usingRealOrders := by
  cases hr : e.roleRes <;> cases hi : e.isInitial <;>
    simp [dashboardFetch, h, hr, hi]

/-- Counterexample to C1 as stated: a dashboard instance whose initial
fetch succeeded with live data (so `usingRealOrders` is true) processes
one periodic re-fetch whose impact call fails, and the static fallback
impact dataset overwrites the live impact figures it was displaying. -/
theorem fallback_suppression_cex :
    (dashboardFetch (initDashboard "t0") evInitialSuccessA).usingRealOrders
      = true ∧
    (dashboardFetch (initDashboard "t0") evInitialSuccessA).impact
      = liveImpactA ∧
    (dashboardFetch (dashboardFetch (initDashboard "t0") evInitialSuccessA)
      evAllFailed).impact = MOCK_IMPACT ∧
    MOCK_IMPACT ≠ liveImpactA := by
  refine ⟨rfl, rfl, rfl, ?_⟩
  intro h
  have h1 := congrArg Impact.total_kg_saved h
  norm_num [MOCK_IMPACT, liveImpactA] at h1

/-- **C1** amended (fallback suppression): on the Dashboard, once any
fetch's orders payload is non-null — an empty array counts — the
`usingRealOrders` flag is true and stays true for the remainder of the
instance's lifetime, and a fetch whose orders payload is null leaves the
orders list untouched; on the TrackingPage a rejected fetch changes
nothing, and a success whose restaurants collection is empty leaves the
currently shown restaurants (possibly the fallback dataset) in place.  The
impact figures are outside the guarantee: a failed impact call rewrites
them with the mock impact dataset (see the counterexample). -/
theorem fallback_suppression_amended :
    (∀ (s : DashboardState) (evts : List FetchEvent),
        s.usingRealOrders = true →
        (dashboardRun s evts).usingRealOrders = true) ∧
    (∀ (s : DashboardState) (e : FetchEvent),
        ordersChain e.myOrdersRes e.listRes = OrdersData.nullData →
          (dashboardFetch s e).orders = s.orders ∧
          (dashboardFetch s e).usingRealOrders = s.usingRealOrders) ∧
    (∀ (s : DashboardState) (e : FetchEvent),
        ordersChain e.myOrdersRes e.listRes ≠ OrdersData.nullData →
          (dashboardFetch s e).usingRealOrders = true) ∧
    (∀ (ts : TrackingState), trackingFetch ts FetchOutcome.failed = ts) ∧
    (∀ (ts : TrackingState) (p : TrackingPayload),
        p.locations.restaurants = some [] →
          (trackingFetch ts (FetchOutcome.ok p)).restaurants
            = ts.restaurants) := by
  refine ⟨?_, ?_, ?_, ?_, ?_⟩
  · intro s evts
    induction evts generalizing s with
    | nil => intro h; exact h
    | cons e es ih =>
        intro h
        exact ih (dashboardFetch s e) (dashboardFetch_flag_mono s e h)
  · exact dashboardFetch_null_orders
  · intro s e h
    cases hd : ordersChain e.myOrdersRes e.listRes with
    | nullData => exact absurd hd h
    | arr os =>
        cases hr : e.roleRes <;> cases hi : e.isInitial <;>
          simp [dashboardFetch, hd, hr, hi]
    | nonArray =>
        cases hr : e.roleRes <;> cases hi : e.isInitial <;>
          simp [dashboardFetch, hd, hr, hi]
  · intro ts
    rfl
  · intro ts p h
    rcases p with ⟨⟨rs, ns, ds⟩, js⟩
    simp only at h
    subst h
    rcases ns with _ | ns <;> rcases ds with _ | ds <;> rcases js with _ | js <;>
      simp [trackingFetch] <;> split_ifs <;> rfl

/-- Witness for the amended C1 on concrete data: after a successful
initial load the flag is true, it survives an all-failed re-fetch, and that
re-fetch leaves the orders list untouched. -/
theorem fallback_suppression_amended_witness :
    (dashboardFetch (initDashboard "t0") evInitialSuccessA).usingRealOrders
      = true ∧
    (dashboardRun (dashboardFetch (initDashboard "t0") evInitialSuccessA)
      [evAllFailed]).usingRealOrders = true ∧
    ordersChain evAllFailed.myOrdersRes evAllFailed.listRes
      = OrdersData.nullData ∧
    (dashboardFetch (dashboardFetch (initDashboard "t0") evInitialSuccessA)
      evAllFailed).orders
      = (dashboardFetch (initDashboard "t0") evInitialSuccessA).orders := by
  have hflag : (dashboardFetch (initDashboard "t0")
      evInitialSuccessA).usingRealOrders = true := rfl
  exact ⟨hflag, fallback_suppression_amended.1 _ [evAllFailed] hflag, rfl,
    (fallback_suppression_amended.2.1 _ evAllFailed rfl).1⟩

/-- Counterexample to C4 as stated: after a successful initial load, a
periodic re-fetch in which every call rejects does not retain the impact
figures — it overwrites them with the mock impact dataset. -/
theorem refetch_failure_cex :
    (dashboardFetch (initDashboard "t1") evInitialSuccessB).impact
      = liveImpactB ∧
    (dashboardFetch (dashboardFetch (initDashboard "t1") evInitialSuccessB)
      evAllFailed).impact = MOCK_IMPACT ∧
    MOCK_IMPACT ≠ liveImpactB := by
  refine ⟨rfl, rfl, ?_⟩
  intro h
  have h1 := congrArg Impact.total_kg_saved h
  norm_num [MOCK_IMPACT, liveImpactB] at h1

/-- **C4** amended (transient re-fetch failure): a fully failed periodic
re-fetch is swallowed (the embedded fetch is total and returns a state)
and retains the orders, the `usingRealOrders` flag, the role data and the
loading flag unchanged, but the impact figures are replaced by the mock
impact dataset; on the TrackingPage a failed re-fetch retains the entire
previous state. -/
theorem refetch_failure_atomicity_amended :
    (∀ (s : DashboardState) (e : FetchEvent),
        e.isInitial = false →
        e.impactRes = FetchOutcome.failed →
        e.myOrdersRes = FetchOutcome.failed →
        e.listRes = FetchOutcome.failed →
        e.roleRes = FetchOutcome.failed →
        dashboardFetch s e = { s with impact := MOCK_IMPACT }) ∧
    (∀ (ts : TrackingState), trackingFetch ts FetchOutcome.failed = ts) := by
  constructor
  · intro s e h1 h2 h3 h4 h5
    simp [dashboardFetch, ordersChain, h1, h2, h3, h4, h5]
  · intro ts
    rfl

/-- Witness for the amended C4 on concrete data. -/
theorem refetch_failure_atomicity_amended_witness :
    evAllFailed.isInitial = false ∧
    dashboardFetch (dashboardFetch (initDashboard "t1") evInitialSuccessB)
      evAllFailed =
      { dashboardFetch (initDashboard "t1") evInitialSuccessB with
        impact := MOCK_IMPACT } :=
  ⟨rfl, refetch_failure_atomicity_amended.1 _ evAllFailed rfl rfl rfl rfl rfl⟩

/-- Counterexample to C5 as stated: with one visibility-triggered fetch
already in flight, a second visibility-regain event starts a duplicate
concurrent fetch from the same trigger source instead of suppressing it. -/
theorem visibility_duplicate_fetch_cex :
    dashboardTrigger [FetchSource.visibility]
      (DashTrigger.visibilityEvent true)
      = [FetchSource.visibility, FetchSource.visibility] ∧
    (dashboardTrigger [FetchSource.visibility]
      (DashTrigger.visibilityEvent true)).length = 2 :=
  ⟨rfl, rfl⟩

/-- **C5** amended (no in-flight guard): the visibility handler calls
`fetchData` unconditionally whenever the document becomes visible — it
consults no in-flight state — so every visibility-regain event adds one
more visibility-sourced fetch to those already pending, and duplicate
concurrent fetches from the same trigger source occur. -/
theorem visibility_no_inflight_guard :
    ∀ (pending : List FetchSource),
      dashboardTrigger pending (DashTrigger.visibilityEvent true)
        = pending ++ [FetchSource.visibility] ∧
      (dashboardTrigger pending
        (DashTrigger.visibilityEvent true)).count FetchSource.visibility
        = pending.count FetchSource.visibility + 1 := by
  intro pending
  refine ⟨rfl, ?_⟩
  simp [dashboardTrigger, List.count_append]

/-- **C6** (merge-upsert additivity): for any prior store contents, writing
lat 10 and lng 20 to a document and then heading 90 to the same document
yields a document holding all three fields, and any field named in neither
write keeps exactly the value it had before (or stays absent if the
document did not exist). -/
theorem merge_upsert_additivity :
    ∀ (store : FsStore) (col id : String),
      ((setDocMerge (setDocMerge store col id
          [("lat", FsValue.num 10), ("lng", FsValue.num 20)]) col id
          [("heading", FsValue.num 90)]) col id).map (fun d => d "lat")
        = some (some (FsValue.num 10)) ∧
      ((setDocMerge (setDocMerge store col id
          [("lat", FsValue.num 10), ("lng", FsValue.num 20)]) col id
          [("heading", FsValue.num 90)]) col id).map (fun d => d "lng")
        = some (some (FsValue.num 20)) ∧
      ((setDocMerge (setDocMerge store col id
          [("lat", FsValue.num 10), ("lng", FsValue.num 20)]) col id
          [("heading", FsValue.num 90)]) col id).map (fun d => d "heading")
        = some (some (FsValue.num 90)) ∧
      (∀ (f : String), f ≠ "lat" → f ≠ "lng" → f ≠ "heading" →
        ((setDocMerge (setDocMerge store col id
            [("lat", FsValue.num 10), ("lng", FsValue.num 20)]) col id
            [("heading", FsValue.num 90)]) col id).map (fun d => d f)
          = some
              (match store col id with
               | some d => d f
               | none => none)) := by
  intro store col id
  have hhit : (col = col ∧ id = id) := ⟨rfl, rfl⟩
  refine ⟨?_, ?_, ?_, ?_⟩
  · simp [setDocMerge, mergeFields, hhit, List.lookup]
  · simp [setDocMerge, mergeFields, hhit, List.lookup]
  · simp [setDocMerge, mergeFields, hhit, List.lookup]
  · intro f h1 h2 h3
    have h1b : (f == "lat") = false := by
      simp [h1]
    have h2b : (f == "lng") = false := by
      simp [h2]
    have h3b : (f == "heading") = false := by
      simp [h3]
    cases hdoc : store col id with
    | none =>
        simp [setDocMerge, mergeFields, hhit, List.lookup, h1b, h2b, h3b,
          hdoc, emptyFsDoc]
    | some d =>
        simp [setDocMerge, mergeFields, hhit, List.lookup, h1b, h2b, h3b,
          hdoc]

/-- Witness for C6 on the empty store at a concrete document, checking the
frame conjunct at the field speed. -/
theorem merge_upsert_additivity_witness :
    ("speed" : String) ≠ "lat" ∧ ("speed" : String) ≠ "lng" ∧
    ("speed" : String) ≠ "heading" ∧
    ((setDocMerge (setDocMerge emptyFsStore DRIVER_LOCATIONS_COL "d1"
        [("lat", FsValue.num 10), ("lng", FsValue.num 20)])
        DRIVER_LOCATIONS_COL "d1"
        [("heading", FsValue.num 90)]) DRIVER_LOCATIONS_COL "d1").map
      (fun d => d "lat") = some (some (FsValue.num 10)) ∧
    ((setDocMerge (setDocMerge emptyFsStore DRIVER_LOCATIONS_COL "d1"
        [("lat", FsValue.num 10), ("lng", FsValue.num 20)])
        DRIVER_LOCATIONS_COL "d1"
        [("heading", FsValue.num 90)]) DRIVER_LOCATIONS_COL "d1").map
      (fun d => d "speed") = some none :=
  ⟨by decide, by decide, by decide,
   (merge_upsert_additivity emptyFsStore DRIVER_LOCATIONS_COL "d1").1,
   (merge_upsert_additivity emptyFsStore DRIVER_LOCATIONS_COL "d1").2.2.2
     "speed" (by decide) (by decide) (by decide)⟩

/-- **C7** (upsert never throws): both adapter upserts are total functions
returning exactly the boolean outcome of the underlying store write — a
failed write is caught and reported as false with the store unchanged —
and a successful write stamps the document with the server-generated
updated-at value. -/
theorem upsert_returns_bool_never_throws :
    ∀ (writeOk : Bool) (serverNow : Nat) (store : FsStore)
      (d : DriverLocationInput) (a : ActiveDelivery),
      (updateDriverLocation writeOk serverNow store d).1 = writeOk ∧
      (writeOk = false →
        (updateDriverLocation writeOk serverNow store d).2 = store) ∧
      (writeOk = true →
        ((updateDriverLocation writeOk serverNow store d).2
            DRIVER_LOCATIONS_COL d.driver_id).map
          (fun doc => doc "updated_at")
          = some (some (FsValue.serverTime serverNow))) ∧
      (upsertActiveDelivery writeOk serverNow store a).1 = writeOk ∧
      (writeOk = false →
        (upsertActiveDelivery writeOk serverNow store a).2 = store) ∧
      (writeOk = true →
        ((upsertActiveDelivery writeOk serverNow store a).2
            ACTIVE_DELIVERIES_COL a.delivery_id).map
          (fun doc => doc "updated_at")
          = some (some (FsValue.serverTime serverNow))) := by
  intro writeOk serverNow store d a
  cases writeOk with
  | false =>
      refine ⟨rfl, fun _ => rfl, ?_, rfl, fun _ => rfl, ?_⟩
      · intro h; cases h
      · intro h; cases h
  | true =>
      refine ⟨rfl, ?_, ?_, rfl, ?_, ?_⟩
      · intro h; cases h
      · intro _
        cases hco : d.current_order_id with
        | none =>
            simp [updateDriverLocation, setDocMerge, mergeFields,
              driverLocationFields, hco, List.lookup]
        | some oid =>
            simp [updateDriverLocation, setDocMerge, mergeFields,
              driverLocationFields, hco, List.lookup]
      · intro h; cases h
      · intro _
        simp [upsertActiveDelivery, setDocMerge, mergeFields,
          activeDeliveryFields, List.lookup]

/-- Witness for C7 at both outcomes on concrete data. -/
theorem upsert_returns_bool_never_throws_witness :
    (false = false) ∧
    (updateDriverLocation false 7 emptyFsStore
      { driver_id := "d1", driver_name := "A", lat := 1, lng := 2,
        heading := 3, speed := 4, vehicle_type := "bike",
        is_available := true, current_order_id := none }).2 = emptyFsStore ∧
    (true = true) ∧
    ((updateDriverLocation true 7 emptyFsStore
      { driver_id := "d1", driver_name := "A", lat := 1, lng := 2,
        heading := 3, speed := 4, vehicle_type := "bike",
        is_available := true, current_order_id := none }).2
        DRIVER_LOCATIONS_COL "d1").map (fun doc => doc "updated_at")
      = some (some (FsValue.serverTime 7)) :=
  ⟨rfl,
   (upsert_returns_bool_never_throws false 7 emptyFsStore
      { driver_id := "d1", driver_name := "A", lat := 1, lng := 2,
        heading := 3, speed := 4, vehicle_type := "bike",
        is_available := true, current_order_id := none }
      { delivery_id := "del1", donation_id := "don1", driver_id := "d1",
        driver_name := "A", restaurant_name := "R", ngo_name := "N",
        pickup_lat := 0, pickup_lng := 0, dropoff_lat := 1,
        dropoff_lng := 1, driver_lat := 0, driver_lng := 0,
        status := "assigned", eta_minutes := 5, distance_km := 2,
        food_description := "Rice", quantity_kg := 3,
        created_at := FsValue.serverTime 1,
        updated_at := FsValue.serverTime 1 }).2.1 rfl,
   rfl,
   (upsert_returns_bool_never_throws true 7 emptyFsStore
      { driver_id := "d1", driver_name := "A", lat := 1, lng := 2,
        heading := 3, speed := 4, vehicle_type := "bike",
        is_available := true, current_order_id := none }
      { delivery_id := "del1", donation_id := "don1", driver_id := "d1",
        driver_name := "A", restaurant_name := "R", ngo_name := "N",
        pickup_lat := 0, pickup_lng := 0, dropoff_lat := 1,
        dropoff_lng := 1, driver_lat := 0, driver_lng := 0,
        status := "assigned", eta_minutes := 5, distance_km := 2,
        food_description := "Rice", quantity_kg := 3,
        created_at := FsValue.serverTime 1,
        updated_at := FsValue.serverTime 1 }).2.2.1 rfl⟩

/-- Counterexample to C8 as stated: with the empty string stored as the
token, a token is present in storage yet the interceptor omits the
Authorization header instead of sending the string Bearer followed by it. -/
theorem fresh_token_cex :
    (issueRequest (some "")).authorization = none ∧
    (issueRequest (some "")).authorization ≠ some ("Bearer " ++ "") := by
  refine ⟨rfl, ?_⟩
  intro h
  simp [issueRequest, attachAuthToken, jsTruthy, baseConfig] at h

/-- **C8** amended (fresh token per call): each request reads the token
from persistent storage at the moment it is issued; when a non-empty token
is stored the Authorization header is exactly the string Bearer followed
by that token, and when no token — or the empty, falsy token — is stored
the header is omitted.  A storage change between two calls is therefore
reflected in the very next call. -/
theorem fresh_token_per_call_amended :
    (∀ (t : String), t ≠ "" →
        (issueRequest (some t)).authorization = some ("Bearer " ++ t)) ∧
    (issueRequest none).authorization = none ∧
    (issueRequest (some "")).authorization = none := by
  refine ⟨?_, rfl, rfl⟩
  intro t ht
  simp [issueRequest, attachAuthToken, jsTruthy, ht, baseConfig]

/-- Witness for the amended C8 at a concrete token. -/
theorem fresh_token_per_call_amended_witness :
    ("tok123" : String) ≠ "" ∧
    (issueRequest (some "tok123")).authorization
      = some ("Bearer " ++ "tok123") :=
  ⟨by decide, fresh_token_per_call_amended.1 "tok123" (by decide)⟩

/-- **C10** (logout always completes locally): whatever the cloud logout
call does — resolve true, resolve false, or reject — the store logout
removes the persisted token and leaves the store with no user, no token,
not authenticated, and no role dashboard data. -/
theorem logout_always_completes_locally :
    ∀ (cloud : CloudLogoutOutcome) (persisted : Option String)
      (s : AuthStoreState),
      storeLogout cloud persisted s =
        (none,
         { user := none, token := none, isAuthenticated := false,
           roleDashboardData := none }) := by
  intro cloud persisted s
  rfl

end AnnSanjivani
